import Mathlib

/-!
Verification of the QR-code scan-tracking backend (qrcode-backend).

Shallow embedding of the scan-lifecycle logic:
  * `isQrCodeExpired`, `recordScan`, `getAnalytics` from `src/utils/analytics.js`
    (the unnamed utility module),
  * the `pre("save")` hook of `src/models/QRCode.js`,
  * the `GET /track/:qrCodeId/:trackingId`, `POST /verify-password/:qrCodeId`
    and `PUT /:id` route handlers of `src/routes/analytics.js` / `qrcodes.js`.

Modelling conventions:
  * Timestamps are `Int` (milliseconds since epoch); "now" is passed explicitly.
  * JS strings read from requests are `String`; the user-agent string is kept
    as a `List Char` so that the char-wise `toLowerCase` of the source is
    `List.map Char.toLower`.
  * `security.expiresAt` is `Option (Option Int)`: `none` = not set (falsy),
    `some none` = set but parses to an invalid date (`NaN` timestamp),
    `some (some t)` = valid timestamp `t`.  This mirrors the two checks the
    source performs (`if (qrCode.security.expiresAt)` then `!isNaN(...)`).
  * `maxScans` and `scanCount` are `Nat`: the schema setter clamps `maxScans`
    with `Math.max(0, parseInt(val))` and `scanCount` only ever increases from
    its default 0, so non-negativity is encoded in the type.
  * The database holding the single record under scrutiny is `Option QRRecord`;
    stateful operations return `(returned value, new database state)`.
-/

/-- One entry of `analytics.scanLocations`.  `country`/`city` are `Option`
because the schema does not require them; `none` models a missing (undefined)
field, `some ""` an empty string (both falsy in JS). -/
structure ScanLocation where
  country : Option String
  city : Option String
  timestamp : Int
deriving DecidableEq

/-- One entry of `analytics.devices` (`{ type, count }` in the schema).
The source field is named `type`; it is renamed `devType` here because `type`
reads poorly as a Lean field name. -/
structure DeviceEntry where
  devType : String
  count : Nat
deriving DecidableEq

/-- The `security` sub-document of a QR record. -/
structure Security where
  password : String
  isPasswordProtected : Bool
  expiresAt : Option (Option Int)
  maxScans : Nat
deriving DecidableEq

/-- The `analytics` sub-document of a QR record. -/
structure Analytics where
  scanCount : Nat
  lastScanned : Option Int
  scanLocations : List ScanLocation
  devices : List DeviceEntry
deriving DecidableEq

/-- A persisted QR record (the fields of `models/QRCode.js` that the
scan-lifecycle logic reads or writes). -/
structure QRRecord where
  id : String
  userId : String
  text : String
  security : Security
  analytics : Analytics
  isExpired : Bool
deriving DecidableEq

/-- JS `x || "Unknown"` on an optional string: missing (`undefined`) and the
empty string are falsy and default to `"Unknown"`. -/
def orUnknown : Option String → String
  | none => "Unknown"
  | some s => if s = "" then "Unknown" else s

/-- JS `String.prototype.trim`: drop leading and trailing whitespace. -/
def trimChars (l : List Char) : List Char :=
  ((l.dropWhile Char.isWhitespace).reverse.dropWhile Char.isWhitespace).reverse

/-- `trimStr s` models `s.trim()` in the route handlers. -/
def trimStr (s : String) : String :=
  String.mk (trimChars s.data)

/-- JS `hay.includes(needle)`: substring containment on character lists. -/
def containsStr (hay needle : List Char) : Bool :=
  decide (needle <:+: hay)

/-- The expiration check of `analytics.js::isQrCodeExpired` on the `expiresAt`
field: `if (qrCode.security.expiresAt) { ... if (!isNaN(expiry.getTime()) &&
now > expiry) return true; }`.  An unset date and an invalid date never pass. -/
def expiresAtPassed (e : Option (Option Int)) (now : Int) : Bool :=
  match e with
  | some (some t) => decide (t < now)
  | some none => false
  | none => false

/-- `isQrCodeExpired(qrCode)` from `src/utils/analytics.js` (lines 159-201):
null record → expired (fail-closed); already-flagged record → expired;
valid past `expiresAt` → expired; `maxScans > 0 && scanCount >= maxScans`
→ expired; otherwise not expired.  The function is pure (it never writes
to the record); `now` stands for `new Date()`. -/
def isQrCodeExpired (qrCode : Option QRRecord) (now : Int) : Bool :=
  match qrCode with
  | none => true
  | some qr =>
    if qr.isExpired then true
    else if expiresAtPassed qr.security.expiresAt now then true
    else if decide (0 < qr.security.maxScans ∧
        qr.security.maxScans ≤ qr.analytics.scanCount) then true
    else false

/-- The `pre("save")` middleware of `models/QRCode.js`: clear the password when
protection is off, clamp `maxScans` to ≥ 0 (an identity here since `maxScans`
is a `Nat`), and null out an invalid `expiresAt`.  This hook runs on
`document.save()` only — Mongoose does not run it for `findOneAndUpdate`,
`findByIdAndUpdate` or `updateOne`. -/
def preSaveHook (qr : QRRecord) : QRRecord :=
  let sec0 := qr.security
  let sec1 := if sec0.isPasswordProtected then sec0 else { sec0 with password := "" }
  let sec2 := match sec1.expiresAt with
    | some none => { sec1 with expiresAt := none }
    | _ => sec1
  { qr with security := sec2 }

/-- The request metadata handed to `recordScan` (`scanData`).  `country`/`city`
are `Option` because the destructuring in the source defaults a missing key to
`"Unknown"` and then re-applies `|| "Unknown"` to catch other falsy values. -/
structure ScanData where
  userAgent : List Char
  ip : String
  referer : String
  country : Option String
  city : Option String
deriving DecidableEq

/-- The device-classification cascade of `recordScan` (lines 50-79 of the
utility module): lowercase the user agent, then ordered substring matching
with first match winning, then the mobile/tablet vs desktop fallback for the
still-unknown case. -/
def detectDeviceType (userAgent : List Char) : String :=
  let ua := userAgent.map Char.toLower
  if containsStr ua "iphone".toList || containsStr ua "ipad".toList then "ios"
  else if containsStr ua "android".toList then "android"
  else if containsStr ua "windows phone".toList then "windows phone"
  else if containsStr ua "macintosh".toList || containsStr ua "mac os".toList then "mac"
  else if containsStr ua "windows".toList then "windows"
  else if containsStr ua "linux".toList then "linux"
  else if containsStr ua "mobile".toList || containsStr ua "tablet".toList then "mobile"
  else if containsStr ua "windows".toList || containsStr ua "macintosh".toList ||
      containsStr ua "linux".toList then "desktop"
  else "unknown"

/-- Mongo `$inc` on `"analytics.devices.$.count"`: increment the count of the
first entry whose type matches. -/
def bumpDevice : List DeviceEntry → String → List DeviceEntry
  | [], _ => []
  | d :: ds, t =>
    if d.devType = t then { d with count := d.count + 1 } :: ds
    else d :: bumpDevice ds t

/-- Step 5 of `recordScan`: the `findOne` existence check for the classified
device type followed by either `$inc` on the matching entry or `$push` of a
fresh `{ type, count: 1 }` entry. -/
def applyDevice (ds : List DeviceEntry) (t : String) : List DeviceEntry :=
  if ds.any (fun d => decide (d.devType = t)) then bumpDevice ds t
  else ds ++ [{ devType := t, count := 1 }]

/-- `recordScan(qrCodeId, scanData)` from `src/utils/analytics.js`
(lines 15-156), as a pure transition on the database state:
the pair returned is (value returned to the caller, database state after the
call).  Absent record → `(null, unchanged)`.  Expired record (per
`isQrCodeExpired` on the pre-update record) → set `isExpired = true`, persist
through `save()` (which runs the pre-save hook) and return null.  Otherwise:
one atomic `findByIdAndUpdate` incrementing `scanCount`, setting
`lastScanned`, computing `isExpired` from the post-increment count, and
appending one scan-location entry; then the two-step device-counter update;
then the final state is re-fetched and returned.
`scanUpdate` is the net effect of steps 3-5 on a non-expired record: the
atomic `findByIdAndUpdate` followed by the device-counter update. -/
def scanUpdate (qrCode : QRRecord) (now : Int) (sd : ScanData) : QRRecord :=
  let deviceType := detectDeviceType sd.userAgent
  let locCountry := orUnknown sd.country
  let locCity := orUnknown sd.city
  let updated : QRRecord :=
    { qrCode with
      isExpired := decide (0 < qrCode.security.maxScans ∧
        qrCode.security.maxScans ≤ qrCode.analytics.scanCount + 1),
      analytics :=
        { qrCode.analytics with
          scanCount := qrCode.analytics.scanCount + 1,
          lastScanned := some now,
          scanLocations := qrCode.analytics.scanLocations ++
            [{ country := some locCountry, city := some locCity, timestamp := now }] } }
  { updated with
    analytics := { updated.analytics with
      devices := applyDevice updated.analytics.devices deviceType } }

/-- `recordScan` proper: dispatch on record presence and the pre-update
expiration check, then apply `scanUpdate`.  The pair is (value returned to
the caller, database state after the call). -/
def recordScan (db : Option QRRecord) (now : Int) (sd : ScanData) :
    Option QRRecord × Option QRRecord :=
  match db with
  | none => (none, none)
  | some qrCode =>
    if isQrCodeExpired (some qrCode) now then
      let saved := preSaveHook { qrCode with isExpired := true }
      (none, some saved)
    else (some (scanUpdate qrCode now sd), some (scanUpdate qrCode now sd))

/-- The `try { ... } catch (error) { return null; }` boundary of `recordScan`
(lines 152-155): a thrown error from any database step is caught and converted
to a null return — it never propagates to the caller. -/
def catchScanError (r : Except Unit (Option QRRecord)) : Option QRRecord :=
  match r with
  | Except.error _ => none
  | Except.ok v => v

/-- Responses of `GET /track/:qrCodeId/:trackingId` in `routes/analytics.js`. -/
inductive TrackResponse where
  | notFound
  | expired
  | requiresPassword
  | success (text : String) (scanCount : Nat) (maxScans : Nat)
deriving DecidableEq

/-- The `GET /track/:qrCodeId/:trackingId` handler of `routes/analytics.js`
(lines 16-76): 404 when absent; `expired` when the evaluator rejects the
record; otherwise `recordScan` is invoked (with country/city hardcoded to
`"Unknown"`), an exhausted record maps to `expired`, and only then is the
password prompt (`requiresPassword`) issued for protected records. -/
def trackRoute (db : Option QRRecord) (now : Int) (ua : List Char)
    (ip referer : String) : TrackResponse × Option QRRecord :=
  match db with
  | none => (TrackResponse.notFound, none)
  | some qrCode =>
    if isQrCodeExpired (some qrCode) now then (TrackResponse.expired, some qrCode)
    else
      let sd : ScanData :=
        { userAgent := ua, ip := ip, referer := referer,
          country := some "Unknown", city := some "Unknown" }
      match recordScan (some qrCode) now sd with
      | (none, db2) => (TrackResponse.expired, db2)
      | (some updated, db2) =>
        if updated.security.isPasswordProtected then (TrackResponse.requiresPassword, db2)
        else (TrackResponse.success updated.text updated.analytics.scanCount
          updated.security.maxScans, db2)

/-- Responses of `POST /verify-password/:qrCodeId` in `routes/analytics.js`. -/
inductive VerifyResponse where
  | notFound
  | notProtected
  | expired
  | limitReached
  | passwordRequired
  | invalidPassword
  | success (redirectUrl : String) (scanCount : Nat) (maxScans : Nat)
deriving DecidableEq

/-- The `POST /verify-password/:qrCodeId` handler of `routes/analytics.js`
(lines 79-179): 404 when absent; 400 when not protected; its own inline
expiration-date and scan-limit checks (performed before the password is even
looked at); `!password` (missing or empty) → 401 password required;
trim-then-compare mismatch → 401 invalid password; on match, `recordScan` is
invoked and its result ignored — the success payload is built from the record
fetched before the scan. -/
def verifyPasswordRoute (db : Option QRRecord) (now : Int)
    (submitted : Option String) (ua : List Char) (ip referer : String) :
    VerifyResponse × Option QRRecord :=
  match db with
  | none => (VerifyResponse.notFound, none)
  | some qrCode =>
    if !qrCode.security.isPasswordProtected then (VerifyResponse.notProtected, some qrCode)
    else if expiresAtPassed qrCode.security.expiresAt now then
      (VerifyResponse.expired, some qrCode)
    else if decide (0 < qrCode.security.maxScans ∧
        qrCode.security.maxScans ≤ qrCode.analytics.scanCount) then
      (VerifyResponse.limitReached, some qrCode)
    else
      match submitted with
      | none => (VerifyResponse.passwordRequired, some qrCode)
      | some pw =>
        if pw = "" then (VerifyResponse.passwordRequired, some qrCode)
        else if trimStr qrCode.security.password = trimStr pw then
          let sd : ScanData :=
            { userAgent := ua, ip := ip, referer := referer,
              country := none, city := none }
          let db2 := (recordScan (some qrCode) now sd).2
          (VerifyResponse.success qrCode.text qrCode.analytics.scanCount
            qrCode.security.maxScans, db2)
        else (VerifyResponse.invalidPassword, some qrCode)

/-- The `PUT /:id` handler of `routes/qrcodes.js` (update a QR code):
`findOneAndUpdate({_id, userId}, updateData, {new: true})`.  Being a query
update, it does NOT run the `pre("save")` hook; `upd` stands for the `$set`
semantics of the request body. -/
def updateQrCode (db : Option QRRecord) (upd : QRRecord → QRRecord) :
    Option QRRecord × Option QRRecord :=
  match db with
  | none => (none, none)
  | some qr =>
    let r := upd qr
    (some r, some r)

/-- The `mostScanned` payload built by `getAnalytics` (`{ id, text, scanCount }`). -/
structure MostScanned where
  id : String
  text : String
  scanCount : Nat
deriving DecidableEq

/-- The user-scope summary object built by `getAnalytics`.  The two breakdown
objects are modelled as insertion-ordered association lists, matching JS
object key order. -/
structure UserSummary where
  totalQrCodes : Nat
  totalScans : Nat
  scansByDevice : List (String × Nat)
  scansByLocation : List (String × Nat)
  mostScanned : Option MostScanned
deriving DecidableEq

/-- JS `if (!obj[k]) obj[k] = 0; obj[k] += c` on an insertion-ordered object:
bump an existing key in place, append a fresh key at the end. -/
def addCount : List (String × Nat) → String → Nat → List (String × Nat)
  | [], k, c => [(k, c)]
  | (k0, c0) :: rest, k, c =>
    if k0 = k then (k0, c0 + c) :: rest else (k0, c0) :: addCount rest k c

/-- Read a key out of a breakdown object; an absent key counts as 0. -/
def lookupCount : List (String × Nat) → String → Nat
  | [], _ => 0
  | (k0, c0) :: rest, k => if k0 = k then c0 else lookupCount rest k

/-- The location key of the aggregation loop: `location.country || "Unknown"`. -/
def locKey (l : ScanLocation) : String :=
  orUnknown l.country

/-- The body of the `qrCodes.forEach` loop of `getAnalytics` (lines 241-271),
acting on the summary under construction paired with the running `maxScans`
variable: add the record's `scanCount` to `totalScans`, replace `mostScanned`
on a strictly larger count, fold the record's device entries into
`scansByDevice`, and count each scan-location entry into `scansByLocation`. -/
def aggStep (st : UserSummary × Nat) (qr : QRRecord) : UserSummary × Nat :=
  match st with
  | (a, m) =>
    let best := if m < qr.analytics.scanCount then
        some (MostScanned.mk qr.id qr.text qr.analytics.scanCount)
      else a.mostScanned
    let m2 := if m < qr.analytics.scanCount then qr.analytics.scanCount else m
    ({ a with
        totalScans := a.totalScans + qr.analytics.scanCount,
        mostScanned := best,
        scansByDevice := qr.analytics.devices.foldl
          (fun mm d => addCount mm d.devType d.count) a.scansByDevice,
        scansByLocation := qr.analytics.scanLocations.foldl
          (fun mm l => addCount mm (locKey l) 1) a.scansByLocation },
      m2)

/-- The user-scope aggregation of `getAnalytics` (lines 230-273): initial
summary with `totalQrCodes` = number of records, everything else empty, then
the `forEach` loop with `maxScans` starting at 0. -/
def aggregateUser (qrCodes : List QRRecord) : UserSummary :=
  (qrCodes.foldl aggStep
    ({ totalQrCodes := qrCodes.length, totalScans := 0, scansByDevice := [],
       scansByLocation := [], mostScanned := none }, 0)).1

/-- The largest `scanCount` among a list of records, seeded with `m`
(specification-side helper for characterising the `mostScanned` fold). -/
def maxScanCount (qrCodes : List QRRecord) (m : Nat) : Nat :=
  qrCodes.foldl (fun acc r => max acc r.analytics.scanCount) m

/-- Result of `getAnalytics`: either a single record's analytics block,
or a user-scope summary. -/
inductive AnalyticsOut where
  | single (a : Analytics)
  | summary (s : UserSummary)
deriving DecidableEq

/-- `getAnalytics(qrCodeId, userId)` from `src/utils/analytics.js`
(lines 204-278) over a database that is a list of records: neither identifier
→ null; `qrCodeId` given → the first matching record's analytics block
verbatim (null when absent); otherwise `userId` given → the aggregation over
all records owned by the user, in query order. -/
def getAnalytics (db : List QRRecord) (qrCodeId userId : Option String) :
    Option AnalyticsOut :=
  match qrCodeId, userId with
  | none, none => none
  | some qid, _ =>
    (match (db.filter (fun r => decide (r.id = qid))).head? with
     | some r => some (AnalyticsOut.single r.analytics)
     | none => none)
  | none, some uid =>
    some (AnalyticsOut.summary (aggregateUser
      (db.filter (fun r => decide (r.userId = uid)))))

/-! Concrete sample data used by witnesses and counterexamples. -/

/-- Fresh analytics block (schema defaults). -/
def freshAnalytics : Analytics :=
  { scanCount := 0, lastScanned := none, scanLocations := [], devices := [] }

/-- Unprotected, unlimited, fresh record. -/
def qrPlain : QRRecord :=
  { id := "q1", userId := "u1", text := "https://example.com",
    security := { password := "", isPasswordProtected := false,
                  expiresAt := none, maxScans := 0 },
    analytics := freshAnalytics, isExpired := false }

/-- Record with `maxScans = 0` but a huge `scanCount` (scan-limit branch must
stay quiet). -/
def qrUnlimited : QRRecord :=
  { qrPlain with analytics := { freshAnalytics with scanCount := 999 } }

/-- Record with `maxScans = 3`, `scanCount = 2` (one scan away from the limit). -/
def qrNearLimit : QRRecord :=
  { qrPlain with
    id := "q2",
    security := { qrPlain.security with maxScans := 3 },
    analytics := { freshAnalytics with scanCount := 2 } }

/-- Record already flagged expired. -/
def qrFlagged : QRRecord :=
  { qrPlain with id := "q3", isExpired := true }

/-- Password-protected record (stored password `"abc"`), no expiry, no limit. -/
def qrProtected : QRRecord :=
  { qrPlain with
    id := "q4",
    security := { password := "abc", isPasswordProtected := true,
                  expiresAt := none, maxScans := 0 } }

/-- Password-protected record whose sticky `isExpired` flag is set while
`expiresAt` is null and `maxScans` is 0. -/
def qrProtectedFlagged : QRRecord :=
  { qrProtected with id := "q5", isExpired := true }

/-- Scan metadata with nothing resolvable. -/
def sdEmpty : ScanData :=
  { userAgent := [], ip := "", referer := "", country := none, city := none }

/-- Records for the user-scope aggregation with scan counts 5, 12 and 3. -/
def qrCount5 : QRRecord :=
  { qrPlain with
    id := "a5", userId := "u8", text := "t5",
    analytics := { freshAnalytics with scanCount := 5 } }

def qrCount12 : QRRecord :=
  { qrPlain with
    id := "a12", userId := "u8", text := "t12",
    analytics := { freshAnalytics with scanCount := 12 } }

def qrCount3 : QRRecord :=
  { qrPlain with
    id := "a3", userId := "u8", text := "t3",
    analytics := { freshAnalytics with scanCount := 3 } }

/-- A record with `scanCount = 0` owned by user `"u9"`. -/
def qrZero : QRRecord :=
  { qrPlain with
    id := "z0", userId := "u9", text := "tz" }

/-- A user edit turning password protection off while leaving the stored
password untouched (one possible `updateData` body for `PUT /:id`). -/
def updProtectionOff (r : QRRecord) : QRRecord :=
  { r with security := { r.security with isPasswordProtected := false } }

/-- The protected sample record after that edit. -/
def qrProtectionOff : QRRecord :=
  updProtectionOff qrProtected

/-! Helper lemmas. -/

/-- `expiresAtPassed` is true exactly for a set, valid, strictly past date. -/
theorem expiresAtPassed_iff (e : Option (Option Int)) (now : Int) :
    expiresAtPassed e now = true ↔ ∃ t, e = some (some t) ∧ t < now := by
  rcases e with _ | (_ | t) <;> simp [expiresAtPassed]

/-- The evaluator on a present record is the disjunction of its three checks. -/
theorem isQrCodeExpired_some (qr : QRRecord) (now : Int) :
    isQrCodeExpired (some qr) now =
      (qr.isExpired || expiresAtPassed qr.security.expiresAt now ||
        decide (0 < qr.security.maxScans ∧
          qr.security.maxScans ≤ qr.analytics.scanCount)) := by
  cases h1 : qr.isExpired <;>
    cases h2 : expiresAtPassed qr.security.expiresAt now <;>
      by_cases h3 : (0 < qr.security.maxScans ∧
          qr.security.maxScans ≤ qr.analytics.scanCount) <;>
        simp [isQrCodeExpired, h1, h2, h3]

/-- C1: `isQrCodeExpired(record)` returns true exactly when the record is
null (fail-closed), or its `isExpired` flag is already set, or `expiresAt` is
set, valid, and strictly before the current time, or `maxScans > 0` and
`scanCount >= maxScans`; in every other case it returns false.  Moreover with
`maxScans = 0` the scan-limit branch never fires: the result reduces to the
flag and the date check alone, whatever `scanCount` is. -/
theorem isQrCodeExpired_policy :
    (∀ (q : Option QRRecord) (now : Int),
      isQrCodeExpired q now = true ↔
        q = none ∨ ∃ qr, q = some qr ∧
          (qr.isExpired = true ∨
            (∃ t, qr.security.expiresAt = some (some t) ∧ t < now) ∨
            (0 < qr.security.maxScans ∧
              qr.security.maxScans ≤ qr.analytics.scanCount))) ∧
    (∀ (qr : QRRecord) (now : Int), qr.security.maxScans = 0 →
      isQrCodeExpired (some qr) now =
        (qr.isExpired || expiresAtPassed qr.security.expiresAt now)) := by
  constructor
  · intro q now
    cases q with
    | none => simp [isQrCodeExpired]
    | some qr =>
      rw [isQrCodeExpired_some]
      simp [expiresAtPassed_iff, or_assoc]
  · intro qr now h
    rw [isQrCodeExpired_some]
    simp [h]

/-- Witness for C1: a record with `maxScans = 0` and `scanCount = 999` is not
expired — the limit branch stays quiet. -/
theorem isQrCodeExpired_policy_witness :
    qrUnlimited.security.maxScans = 0 ∧
      isQrCodeExpired (some qrUnlimited) 1000 = false := by
  refine ⟨by decide, ?_⟩
  rw [isQrCodeExpired_policy.2 qrUnlimited 1000 (by decide)]
  decide

/-- Projections of the pre-save hook: it only rewrites the security
sub-document, never analytics or the lifecycle flag. -/
theorem preSaveHook_analytics (qr : QRRecord) :
    (preSaveHook qr).analytics = qr.analytics := rfl

theorem preSaveHook_isExpired (qr : QRRecord) :
    (preSaveHook qr).isExpired = qr.isExpired := rfl

/-- C2: on a non-expired record found by `recordScan`, the recording step
increments `scanCount` by exactly 1, sets `lastScanned` to the current time,
appends one `{country, city, timestamp}` entry (defaulting to "Unknown" when
not resolvable), and writes into `isExpired` exactly the boolean
`maxScans > 0 && post-increment count >= maxScans`, leaving the security
sub-document untouched; the recorded state is both returned and persisted. -/
theorem recordScan_records (qr : QRRecord) (now : Int) (sd : ScanData)
    (h : isQrCodeExpired (some qr) now = false) :
    recordScan (some qr) now sd =
      (some (scanUpdate qr now sd), some (scanUpdate qr now sd)) ∧
    (scanUpdate qr now sd).analytics.scanCount = qr.analytics.scanCount + 1 ∧
    (scanUpdate qr now sd).analytics.lastScanned = some now ∧
    (scanUpdate qr now sd).analytics.scanLocations =
      qr.analytics.scanLocations ++
        [{ country := some (orUnknown sd.country),
           city := some (orUnknown sd.city), timestamp := now }] ∧
    (scanUpdate qr now sd).isExpired =
      decide (0 < qr.security.maxScans ∧
        qr.security.maxScans ≤ qr.analytics.scanCount + 1) ∧
    (scanUpdate qr now sd).security = qr.security ∧
    (scanUpdate qr now sd).analytics.devices =
      applyDevice qr.analytics.devices (detectDeviceType sd.userAgent) :=
  ⟨by simp [recordScan, h], rfl, rfl, rfl, rfl, rfl, rfl⟩

/-- Witness for C2, including the claim's concrete walk-through: a record with
`maxScans = 3` and `scanCount = 2` ends one recorded scan with `scanCount = 3`
and `isExpired = true`, and a following scan attempt on that record returns
null with its analytics left exactly as they were. -/
theorem recordScan_records_witness :
    (recordScan (some qrNearLimit) 10 sdEmpty).1 =
      some (scanUpdate qrNearLimit 10 sdEmpty) ∧
    (scanUpdate qrNearLimit 10 sdEmpty).analytics.scanCount = 3 ∧
    (scanUpdate qrNearLimit 10 sdEmpty).isExpired = true ∧
    (recordScan (some (scanUpdate qrNearLimit 10 sdEmpty)) 11 sdEmpty).1 = none ∧
    ((recordScan (some (scanUpdate qrNearLimit 10 sdEmpty)) 11 sdEmpty).2).map
      QRRecord.analytics = some (scanUpdate qrNearLimit 10 sdEmpty).analytics := by
  refine ⟨?_, by decide, by decide, by decide, by decide⟩
  rw [(recordScan_records qrNearLimit 10 sdEmpty (by decide)).1]

/-- C3: the `isExpired` flag is sticky.  On a record whose flag is already
true, the policy evaluator never answers false, and `recordScan` (the only
writer of the flag: the early `save()` and the conditional update) returns
null and persists a state whose flag is still true — it never reverts it. -/
theorem isExpired_sticky (qr : QRRecord) (now : Int) (sd : ScanData)
    (h : qr.isExpired = true) :
    isQrCodeExpired (some qr) now = true ∧
    (recordScan (some qr) now sd).1 = none ∧
    ((recordScan (some qr) now sd).2).map QRRecord.isExpired = some true := by
  have he : isQrCodeExpired (some qr) now = true := by
    simp [isQrCodeExpired, h]
  refine ⟨he, ?_, ?_⟩
  · simp [recordScan, he]
  · simp [recordScan, he, preSaveHook_isExpired]

/-- Witness for C3: the flagged sample record. -/
theorem isExpired_sticky_witness :
    isQrCodeExpired (some qrFlagged) 50 = true ∧
    (recordScan (some qrFlagged) 50 sdEmpty).1 = none ∧
    ((recordScan (some qrFlagged) 50 sdEmpty).2).map QRRecord.isExpired =
      some true :=
  isExpired_sticky qrFlagged 50 sdEmpty (by decide)

/-- C9: when the policy evaluator judges the pre-update record expired,
`recordScan` persists `isExpired = true` through `save()` and returns null,
with every analytics field (scanCount, lastScanned, scanLocations, devices)
unchanged; an absent record returns null with nothing written; and the
`try/catch` boundary converts any thrown error into a null return instead of
propagating it. -/
theorem recordScan_expired_policy :
    (∀ (qr : QRRecord) (now : Int) (sd : ScanData),
      isQrCodeExpired (some qr) now = true →
        recordScan (some qr) now sd =
          (none, some (preSaveHook { qr with isExpired := true })) ∧
        (preSaveHook { qr with isExpired := true }).analytics = qr.analytics ∧
        (preSaveHook { qr with isExpired := true }).isExpired = true) ∧
    (∀ (now : Int) (sd : ScanData), recordScan none now sd = (none, none)) ∧
    (∀ e : Unit, catchScanError (Except.error e) = none) := by
  refine ⟨fun qr now sd h => ⟨by simp [recordScan, h], rfl, rfl⟩,
    fun now sd => rfl, fun e => rfl⟩

/-- Witness for C9: a record whose valid expiry date lies strictly in the
past, with a scan never recorded on it. -/
theorem recordScan_expired_policy_witness :
    isQrCodeExpired (some qrFlagged) 7 = true ∧
    (recordScan (some qrFlagged) 7 sdEmpty =
        (none, some (preSaveHook { qrFlagged with isExpired := true })) ∧
      (preSaveHook { qrFlagged with isExpired := true }).analytics =
        qrFlagged.analytics ∧
      (preSaveHook { qrFlagged with isExpired := true }).isExpired = true) :=
  ⟨by decide, recordScan_expired_policy.1 qrFlagged 7 sdEmpty (by decide)⟩

/-- A substring survives the char-wise lowercasing when the needle is already
lowercase-invariant. -/
theorem infix_map_toLower {needle ua : List Char}
    (hfix : needle.map Char.toLower = needle) (h : needle <:+: ua) :
    needle <:+: ua.map Char.toLower := by
  obtain ⟨s, t, rfl⟩ := h
  exact ⟨s.map Char.toLower, t.map Char.toLower, by simp [hfix]⟩

/-- C7: device classification is ordered substring matching with the iOS
markers checked first, so any user agent containing both "iphone" and
"android" classifies as "ios" (first match wins). -/
theorem detectDeviceType_order (ua : List Char)
    (h1 : "iphone".toList <:+: ua) (_h2 : "android".toList <:+: ua) :
    detectDeviceType ua = "ios" := by
  have hc : containsStr (ua.map Char.toLower) "iphone".toList = true := by
    simp only [containsStr, decide_eq_true_eq]
    exact infix_map_toLower (by decide) h1
  simp only [detectDeviceType]
  rw [hc]
  rfl

/-- Witness for C7: a user agent mentioning both platforms. -/
theorem detectDeviceType_order_witness :
    ("iphone".toList <:+: "mozilla iphone android".toList) ∧
    ("android".toList <:+: "mozilla iphone android".toList) ∧
    detectDeviceType "mozilla iphone android".toList = "ios" :=
  ⟨by decide, by decide,
    detectDeviceType_order "mozilla iphone android".toList (by decide) (by decide)⟩

/-- `scanUpdate` never touches the security sub-document. -/
theorem scanUpdate_security (qr : QRRecord) (now : Int) (sd : ScanData) :
    (scanUpdate qr now sd).security = qr.security := rfl

/-- The pre-save hook leaves the protection flag alone. -/
theorem preSaveHook_protected (qr : QRRecord) :
    (preSaveHook qr).security.isPasswordProtected =
      qr.security.isPasswordProtected := by
  rcases h : qr.security.expiresAt with _ | (_ | t) <;>
    by_cases hp : qr.security.isPasswordProtected <;>
      simp [preSaveHook, h, hp]

/-- The stored password after the pre-save hook: cleared exactly when
protection is off. -/
theorem preSaveHook_password (qr : QRRecord) :
    (preSaveHook qr).security.password =
      if qr.security.isPasswordProtected then qr.security.password else "" := by
  rcases h : qr.security.expiresAt with _ | (_ | t) <;>
    by_cases hp : qr.security.isPasswordProtected <;>
      simp [preSaveHook, h, hp]

/-- C4 (amended): persists that go through `document.save()` (creation and the
expired-path save in `recordScan`) run the pre-save hook, which clears the
password whenever protection is off, so for those writes the password is
non-empty only when `isPasswordProtected` is true; the `PUT /:id` update route
persists via `findOneAndUpdate`, which bypasses the hook, so that route can
leave a non-empty password on an unprotected record. -/
theorem preSaveHook_password_invariant :
    ∀ qr : QRRecord,
      ((preSaveHook qr).security.isPasswordProtected = false →
        (preSaveHook qr).security.password = "") ∧
      (preSaveHook qr).security.isPasswordProtected =
        qr.security.isPasswordProtected := by
  intro qr
  refine ⟨?_, preSaveHook_protected qr⟩
  intro h
  rw [preSaveHook_protected] at h
  rw [preSaveHook_password]
  simp [h]

/-- Witness for C4: the hook clears nothing on `qrPlain` because there is
nothing to clear, and the protection-off implication fires concretely. -/
theorem preSaveHook_password_invariant_witness :
    (preSaveHook qrPlain).security.isPasswordProtected = false ∧
    (preSaveHook qrPlain).security.password = "" :=
  ⟨by decide, (preSaveHook_password_invariant qrPlain).1 (by decide)⟩

/-- Counterexample for C4 as stated: editing a protected record through the
update route to turn protection off leaves the stored password `"abc"` in
place, so after this persist `password` is non-empty while
`isPasswordProtected` is false. -/
theorem update_route_password_cex :
    updateQrCode (some qrProtected) updProtectionOff =
      (some qrProtectionOff, some qrProtectionOff) ∧
    qrProtectionOff.security.isPasswordProtected = false ∧
    qrProtectionOff.security.password = "abc" :=
  ⟨rfl, rfl, rfl⟩

/-- C5 (amended): expiration and scan-limit checks run before the password
prompt is issued — an expired record is rejected by the track route with no
database write — and the verify-password endpoint records no scan on a failed
verification; but the track route, when it issues the password prompt for a
live protected record, has already recorded the scan (the database leaves
with `scanUpdate` applied). -/
theorem scan_gating_policy :
    (∀ (qr : QRRecord) (now : Int) (ua : List Char) (ip referer : String),
      isQrCodeExpired (some qr) now = true →
        trackRoute (some qr) now ua ip referer =
          (TrackResponse.expired, some qr)) ∧
    (∀ (qr : QRRecord) (now : Int) (ua : List Char) (ip referer : String),
      isQrCodeExpired (some qr) now = false →
      qr.security.isPasswordProtected = true →
        trackRoute (some qr) now ua ip referer =
          (TrackResponse.requiresPassword,
            some (scanUpdate qr now
              { userAgent := ua, ip := ip, referer := referer,
                country := some "Unknown", city := some "Unknown" }))) ∧
    (∀ (qr : QRRecord) (now : Int) (pw : String) (ua : List Char)
        (ip referer : String),
      qr.security.isPasswordProtected = true →
      expiresAtPassed qr.security.expiresAt now = false →
      ¬(0 < qr.security.maxScans ∧
          qr.security.maxScans ≤ qr.analytics.scanCount) →
      pw ≠ "" →
      trimStr qr.security.password ≠ trimStr pw →
        verifyPasswordRoute (some qr) now (some pw) ua ip referer =
          (VerifyResponse.invalidPassword, some qr)) := by
  refine ⟨?_, ?_, ?_⟩
  · intro qr now ua ip referer h
    simp [trackRoute, h]
  · intro qr now ua ip referer h hp
    simp [trackRoute, h, recordScan, scanUpdate_security, hp]
  · intro qr now pw ua ip referer hprot hexp hlim hne hmis
    simp [verifyPasswordRoute, hprot, hexp, hlim, hne, hmis]

/-- Witness for C5 (amended), at concrete records. -/
theorem scan_gating_policy_witness :
    trackRoute (some qrFlagged) 3 [] "" "" =
      (TrackResponse.expired, some qrFlagged) ∧
    trackRoute (some qrProtected) 3 [] "" "" =
      (TrackResponse.requiresPassword,
        some (scanUpdate qrProtected 3
          { userAgent := [], ip := "", referer := "",
            country := some "Unknown", city := some "Unknown" })) ∧
    verifyPasswordRoute (some qrProtected) 3 (some "zzz") [] "" "" =
      (VerifyResponse.invalidPassword, some qrProtected) :=
  ⟨scan_gating_policy.1 qrFlagged 3 [] "" "" (by decide),
   scan_gating_policy.2.1 qrProtected 3 [] "" "" (by decide) (by decide),
   scan_gating_policy.2.2 qrProtected 3 "zzz" [] "" ""
     (by decide) (by decide) (by decide) (by decide) (by decide)⟩

/-- Counterexample for C5 as stated: on a live password-protected record, the
track route answers with the password prompt having already recorded a scan —
the stored scan count goes from 0 to 1 before any password is submitted. -/
theorem track_records_before_password_cex :
    (trackRoute (some qrProtected) 0 [] "" "").1 =
      TrackResponse.requiresPassword ∧
    ((trackRoute (some qrProtected) 0 [] "" "").2).map
      (fun r => r.analytics.scanCount) = some 1 ∧
    qrProtected.analytics.scanCount = 0 :=
  ⟨by decide, by decide, by decide⟩

/-- C6: password verification trims both the stored and the submitted value
and compares for exact (case-sensitive) equality; a match invokes the scan
recorder and answers success, a mismatch answers an authentication failure
with the database untouched. -/
theorem verifyPassword_compare (qr : QRRecord) (now : Int) (pw : String)
    (ua : List Char) (ip referer : String)
    (hprot : qr.security.isPasswordProtected = true)
    (hexp : expiresAtPassed qr.security.expiresAt now = false)
    (hlim : ¬(0 < qr.security.maxScans ∧
      qr.security.maxScans ≤ qr.analytics.scanCount))
    (hne : pw ≠ "") :
    (trimStr qr.security.password = trimStr pw →
      verifyPasswordRoute (some qr) now (some pw) ua ip referer =
        (VerifyResponse.success qr.text qr.analytics.scanCount
          qr.security.maxScans,
         (recordScan (some qr) now
           { userAgent := ua, ip := ip, referer := referer,
             country := none, city := none }).2)) ∧
    (trimStr qr.security.password ≠ trimStr pw →
      verifyPasswordRoute (some qr) now (some pw) ua ip referer =
        (VerifyResponse.invalidPassword, some qr)) := by
  constructor
  · intro heq
    simp [verifyPasswordRoute, hprot, hexp, hlim, hne, heq]
  · intro hmis
    simp [verifyPasswordRoute, hprot, hexp, hlim, hne, hmis]

/-- Witness for C6: stored password `"abc"`; submitting `" abc "` succeeds
(trim-then-compare), submitting `"ABC"` fails (case-sensitive). -/
theorem verifyPassword_compare_witness :
    verifyPasswordRoute (some qrProtected) 0 (some " abc ") [] "" "" =
      (VerifyResponse.success qrProtected.text qrProtected.analytics.scanCount
        qrProtected.security.maxScans,
       (recordScan (some qrProtected) 0
         { userAgent := [], ip := "", referer := "",
           country := none, city := none }).2) ∧
    verifyPasswordRoute (some qrProtected) 0 (some "ABC") [] "" "" =
      (VerifyResponse.invalidPassword, some qrProtected) :=
  ⟨(verifyPassword_compare qrProtected 0 " abc " [] "" ""
      (by decide) (by decide) (by decide) (by decide)).1 (by decide),
   (verifyPassword_compare qrProtected 0 "ABC" [] "" ""
      (by decide) (by decide) (by decide) (by decide)).2 (by decide)⟩

/-- C10: on a protected record whose sticky `isExpired` flag is set while
`expiresAt` is null and `maxScans` is 0, a correct password submission is
answered with success and the redirect target even though `recordScan`
returns null and no analytics are mutated — the endpoint ignores the
recorder's result, and the sticky flag alone does not block verification. -/
theorem verifyPassword_ignores_recorder (qr : QRRecord) (now : Int)
    (pw : String) (ua : List Char) (ip referer : String)
    (hprot : qr.security.isPasswordProtected = true)
    (hflag : qr.isExpired = true)
    (hexp : qr.security.expiresAt = none)
    (hmax : qr.security.maxScans = 0)
    (hne : pw ≠ "")
    (heq : trimStr qr.security.password = trimStr pw) :
    verifyPasswordRoute (some qr) now (some pw) ua ip referer =
      (VerifyResponse.success qr.text qr.analytics.scanCount
        qr.security.maxScans,
       some (preSaveHook { qr with isExpired := true })) ∧
    (recordScan (some qr) now
      { userAgent := ua, ip := ip, referer := referer,
        country := none, city := none }).1 = none ∧
    (preSaveHook { qr with isExpired := true }).analytics = qr.analytics := by
  have he : isQrCodeExpired (some qr) now = true := by
    simp [isQrCodeExpired, hflag]
  refine ⟨?_, by simp [recordScan, he], rfl⟩
  simp [verifyPasswordRoute, hprot, hexp, hmax, hne, heq, expiresAtPassed,
    recordScan, he]

/-- Witness for C10: the flagged protected sample record with the correct
password. -/
theorem verifyPassword_ignores_recorder_witness :
    verifyPasswordRoute (some qrProtectedFlagged) 9 (some " abc ") [] "" "" =
      (VerifyResponse.success qrProtectedFlagged.text
        qrProtectedFlagged.analytics.scanCount
        qrProtectedFlagged.security.maxScans,
       some (preSaveHook { qrProtectedFlagged with isExpired := true })) ∧
    (recordScan (some qrProtectedFlagged) 9
      { userAgent := [], ip := "", referer := "",
        country := none, city := none }).1 = none ∧
    (preSaveHook { qrProtectedFlagged with isExpired := true }).analytics =
      qrProtectedFlagged.analytics :=
  verifyPassword_ignores_recorder qrProtectedFlagged 9 " abc " [] "" ""
    (by decide) (by decide) (by decide) (by decide) (by decide) (by decide)

/-- The seed never exceeds the running maximum of scan counts. -/
theorem le_maxScanCount : ∀ (qs : List QRRecord) (m : Nat), m ≤ maxScanCount qs m := by
  intro qs
  induction qs with
  | nil => intro m; exact Nat.le_refl m
  | cons q rest ih =>
    intro m
    exact le_trans (Nat.le_max_left m q.analytics.scanCount)
      (ih (max m q.analytics.scanCount))

/-- Reading a key after `addCount`: bumped when it is the written key,
untouched otherwise. -/
theorem lookup_addCount (k0 : String) (c : Nat) (k : String) :
    ∀ mm : List (String × Nat),
      lookupCount (addCount mm k0 c) k =
        lookupCount mm k + (if k0 = k then c else 0)
  | [] => by by_cases hk : k0 = k <;> simp [addCount, lookupCount, hk]
  | (k1, c1) :: rest => by
    by_cases h10 : k1 = k0
    · subst h10
      by_cases hk : k1 = k <;> simp [addCount, lookupCount, hk]
    · by_cases hk1 : k1 = k
      · subst hk1
        have h01 : ¬ k0 = k1 := fun h => h10 h.symm
        simp [addCount, lookupCount, h10, h01]
      · simp [addCount, lookupCount, h10, hk1, lookup_addCount k0 c k rest]

/-- Folding a record's device entries into a breakdown object adds, per key,
the summed counts of the matching entries. -/
theorem lookup_devFold :
    ∀ (ds : List DeviceEntry) (mm : List (String × Nat)) (k : String),
      lookupCount (ds.foldl (fun acc d => addCount acc d.devType d.count) mm) k =
        lookupCount mm k +
          ((ds.filter (fun d => decide (d.devType = k))).map
            (fun d => d.count)).sum := by
  intro ds
  induction ds with
  | nil => intro mm k; simp
  | cons d rest ih =>
    intro mm k
    rw [List.foldl_cons, ih, lookup_addCount]
    by_cases h : d.devType = k <;> simp [h, List.filter_cons] <;> omega

/-- Folding a record's scan locations into a breakdown object adds, per key,
one unit per matching location entry. -/
theorem lookup_locFold :
    ∀ (ls : List ScanLocation) (mm : List (String × Nat)) (k : String),
      lookupCount (ls.foldl (fun acc l => addCount acc (locKey l) 1) mm) k =
        lookupCount mm k +
          (ls.filter (fun l => decide (locKey l = k))).length := by
  intro ls
  induction ls with
  | nil => intro mm k; simp
  | cons l rest ih =>
    intro mm k
    rw [List.foldl_cons, ih, lookup_addCount]
    by_cases h : locKey l = k <;> simp [h, List.filter_cons] <;> omega

/-- The aggregation loop never touches `totalQrCodes`. -/
theorem aggFold_totalQrCodes :
    ∀ (qrs : List QRRecord) (a : UserSummary) (m : Nat),
      ((qrs.foldl aggStep (a, m)).1).totalQrCodes = a.totalQrCodes := by
  intro qrs
  induction qrs with
  | nil => intro a m; rfl
  | cons q qs ih =>
    intro a m
    rw [List.foldl_cons]
    exact (ih (aggStep (a, m) q).1 (aggStep (a, m) q).2).trans rfl

/-- The aggregation loop adds every record's `scanCount` into `totalScans`. -/
theorem aggFold_totalScans :
    ∀ (qrs : List QRRecord) (a : UserSummary) (m : Nat),
      ((qrs.foldl aggStep (a, m)).1).totalScans =
        a.totalScans + (qrs.map (fun r => r.analytics.scanCount)).sum := by
  intro qrs
  induction qrs with
  | nil => intro a m; simp
  | cons q qs ih =>
    intro a m
    rw [List.foldl_cons]
    have h : ((List.foldl aggStep (aggStep (a, m) q) qs).1).totalScans =
        (aggStep (a, m) q).1.totalScans +
          (qs.map (fun r => r.analytics.scanCount)).sum :=
      ih (aggStep (a, m) q).1 (aggStep (a, m) q).2
    rw [h]
    show a.totalScans + q.analytics.scanCount + _ = _
    simp
    omega

/-- The aggregation loop folds every record's device entries into
`scansByDevice`. -/
theorem aggFold_device :
    ∀ (qrs : List QRRecord) (a : UserSummary) (m : Nat) (k : String),
      lookupCount ((qrs.foldl aggStep (a, m)).1).scansByDevice k =
        lookupCount a.scansByDevice k +
          (qrs.map (fun r => ((r.analytics.devices.filter
            (fun d => decide (d.devType = k))).map (fun d => d.count)).sum)).sum := by
  intro qrs
  induction qrs with
  | nil => intro a m k; simp
  | cons q qs ih =>
    intro a m k
    rw [List.foldl_cons]
    have h := ih (aggStep (a, m) q).1 (aggStep (a, m) q).2 k
    rw [h]
    have h2 : lookupCount ((aggStep (a, m) q).1).scansByDevice k =
        lookupCount a.scansByDevice k +
          ((q.analytics.devices.filter (fun d => decide (d.devType = k))).map
            (fun d => d.count)).sum :=
      lookup_devFold q.analytics.devices a.scansByDevice k
    rw [h2]
    simp
    omega

/-- The aggregation loop counts every record's scan-location entries into
`scansByLocation`. -/
theorem aggFold_loc :
    ∀ (qrs : List QRRecord) (a : UserSummary) (m : Nat) (k : String),
      lookupCount ((qrs.foldl aggStep (a, m)).1).scansByLocation k =
        lookupCount a.scansByLocation k +
          (qrs.map (fun r => (r.analytics.scanLocations.filter
            (fun l => decide (locKey l = k))).length)).sum := by
  intro qrs
  induction qrs with
  | nil => intro a m k; simp
  | cons q qs ih =>
    intro a m k
    rw [List.foldl_cons]
    have h := ih (aggStep (a, m) q).1 (aggStep (a, m) q).2 k
    rw [h]
    have h2 : lookupCount ((aggStep (a, m) q).1).scansByLocation k =
        lookupCount a.scansByLocation k +
          (q.analytics.scanLocations.filter (fun l => decide (locKey l = k))).length :=
      lookup_locFold q.analytics.scanLocations a.scansByLocation k
    rw [h2]
    simp
    omega

/-- The running-maximum state of the aggregation loop is the maximum scan
count seen so far, and `mostScanned` is the first record attaining it — the
strict comparison means a seed that is never beaten leaves the incoming
`mostScanned` untouched. -/
theorem aggFold_most :
    ∀ (qrs : List QRRecord) (a : UserSummary) (m : Nat),
      (qrs.foldl aggStep (a, m)).2 = maxScanCount qrs m ∧
      ((qrs.foldl aggStep (a, m)).1).mostScanned =
        (if m < maxScanCount qrs m then
          (qrs.find? (fun r =>
            decide (r.analytics.scanCount = maxScanCount qrs m))).map
            (fun r => MostScanned.mk r.id r.text r.analytics.scanCount)
        else a.mostScanned) := by
  intro qrs
  induction qrs with
  | nil =>
    intro a m
    refine ⟨rfl, ?_⟩
    simp [maxScanCount]
  | cons q qs ih =>
    intro a m
    obtain ⟨ih2, ih1⟩ := ih (aggStep (a, m) q).1 (aggStep (a, m) q).2
    rw [Prod.mk.eta] at ih2 ih1
    by_cases hc : m < q.analytics.scanCount
    · have hm2 : (aggStep (a, m) q).2 = q.analytics.scanCount := by
        simp [aggStep, hc]
      have hbest : ((aggStep (a, m) q).1).mostScanned =
          some (MostScanned.mk q.id q.text q.analytics.scanCount) := by
        simp [aggStep, hc]
      rw [hm2] at ih2 ih1
      rw [hbest] at ih1
      have hMeq : maxScanCount (q :: qs) m =
          maxScanCount qs q.analytics.scanCount := by
        show maxScanCount qs (max m q.analytics.scanCount) = _
        rw [Nat.max_eq_right (Nat.le_of_lt hc)]
      constructor
      · rw [List.foldl_cons, hMeq]
        exact ih2
      · rw [List.foldl_cons, ih1, hMeq]
        have hmM : m < maxScanCount qs q.analytics.scanCount :=
          lt_of_lt_of_le hc (le_maxScanCount qs q.analytics.scanCount)
        rw [if_pos hmM]
        by_cases hcM : q.analytics.scanCount <
            maxScanCount qs q.analytics.scanCount
        · rw [if_pos hcM,
            List.find?_cons_of_neg _ (by simp [Nat.ne_of_lt hcM])]
        · have hEq : q.analytics.scanCount =
              maxScanCount qs q.analytics.scanCount :=
            Nat.le_antisymm (le_maxScanCount qs _) (Nat.le_of_not_lt hcM)
          rw [if_neg hcM, List.find?_cons_of_pos _ (by simpa using hEq)]
          simp
    · have hm2 : (aggStep (a, m) q).2 = m := by
        simp [aggStep, hc]
      have hbest : ((aggStep (a, m) q).1).mostScanned = a.mostScanned := by
        simp [aggStep, hc]
      rw [hm2] at ih2 ih1
      rw [hbest] at ih1
      have hMeq : maxScanCount (q :: qs) m = maxScanCount qs m := by
        show maxScanCount qs (max m q.analytics.scanCount) = _
        rw [Nat.max_eq_left (Nat.le_of_not_lt hc)]
      constructor
      · rw [List.foldl_cons, hMeq]
        exact ih2
      · rw [List.foldl_cons, ih1, hMeq]
        by_cases hmM : m < maxScanCount qs m
        · have hne : q.analytics.scanCount ≠ maxScanCount qs m :=
            Nat.ne_of_lt (lt_of_le_of_lt (Nat.le_of_not_lt hc) hmM)
          rw [if_pos hmM, if_pos hmM,
            List.find?_cons_of_neg _ (by simp [hne])]
        · rw [if_neg hmM, if_neg hmM]

/-- C8 (amended): `getAnalytics` returns null when neither identifier is
given; with a `qrId` it returns the first matching record's analytics block
verbatim (null when not found); with only a `userId` it aggregates over the
user's records in query order: `totalQrCodes` is the record count,
`totalScans` the sum of scan counts, `mostScanned` the first record attaining
the maximum scan count when that maximum is positive and null when every
record has `scanCount = 0` (the loop compares strictly against a running
maximum that starts at 0), per-device totals sum the matching device entries
across all records, and per-country totals count one unit per location entry
with unresolvable countries keyed as "Unknown".  The claim's concrete case:
counts 5, 12, 3 give `totalScans = 20` and `mostScanned` the count-12 record. -/
theorem getAnalytics_spec :
    (∀ db : List QRRecord, getAnalytics db none none = none) ∧
    (∀ (db : List QRRecord) (qid : String) (uid : Option String),
      getAnalytics db (some qid) uid =
        ((db.filter (fun r => decide (r.id = qid))).head?).map
          (fun r => AnalyticsOut.single r.analytics)) ∧
    (∀ (db : List QRRecord) (uid : String),
      getAnalytics db none (some uid) =
        some (AnalyticsOut.summary (aggregateUser
          (db.filter (fun r => decide (r.userId = uid)))))) ∧
    (∀ qrs : List QRRecord,
      (aggregateUser qrs).totalQrCodes = qrs.length ∧
      (aggregateUser qrs).totalScans =
        (qrs.map (fun r => r.analytics.scanCount)).sum ∧
      (aggregateUser qrs).mostScanned =
        (if 0 < maxScanCount qrs 0 then
          (qrs.find? (fun r =>
            decide (r.analytics.scanCount = maxScanCount qrs 0))).map
            (fun r => MostScanned.mk r.id r.text r.analytics.scanCount)
        else none) ∧
      (∀ k : String,
        lookupCount (aggregateUser qrs).scansByDevice k =
          (qrs.map (fun r => ((r.analytics.devices.filter
            (fun d => decide (d.devType = k))).map (fun d => d.count)).sum)).sum ∧
        lookupCount (aggregateUser qrs).scansByLocation k =
          (qrs.map (fun r => (r.analytics.scanLocations.filter
            (fun l => decide (locKey l = k))).length)).sum)) ∧
    ((aggregateUser [qrCount5, qrCount12, qrCount3]).totalScans = 20 ∧
      (aggregateUser [qrCount5, qrCount12, qrCount3]).mostScanned =
        some (MostScanned.mk "a12" "t12" 12)) := by
  refine ⟨fun db => rfl, ?_, fun db uid => rfl, ?_, by decide, by decide⟩
  · intro db qid uid
    cases h : (db.filter (fun r => decide (r.id = qid))).head? <;>
      simp [getAnalytics, h]
  · intro qrs
    refine ⟨?_, ?_, ?_, ?_⟩
    · exact (aggFold_totalQrCodes qrs _ 0).trans rfl
    · have h := aggFold_totalScans qrs
        { totalQrCodes := qrs.length, totalScans := 0, scansByDevice := [],
          scansByLocation := [], mostScanned := none } 0
      simpa [aggregateUser] using h
    · have h := (aggFold_most qrs
        { totalQrCodes := qrs.length, totalScans := 0, scansByDevice := [],
          scansByLocation := [], mostScanned := none } 0).2
      simpa [aggregateUser] using h
    · intro k
      constructor
      · have h := aggFold_device qrs
          { totalQrCodes := qrs.length, totalScans := 0, scansByDevice := [],
            scansByLocation := [], mostScanned := none } 0 k
        simpa [aggregateUser, lookupCount] using h
      · have h := aggFold_loc qrs
          { totalQrCodes := qrs.length, totalScans := 0, scansByDevice := [],
            scansByLocation := [], mostScanned := none } 0 k
        simpa [aggregateUser, lookupCount] using h

/-- Counterexample for C8 as stated: a user owning exactly one record with
`scanCount = 0` gets `mostScanned = null` from the aggregation, even though
that record is the one with the highest scan count — the strict comparison
against the initial running maximum 0 never selects it. -/
theorem aggregateUser_mostScanned_zero_cex :
    getAnalytics [qrZero] none (some "u9") =
      some (AnalyticsOut.summary
        { totalQrCodes := 1, totalScans := 0, scansByDevice := [],
          scansByLocation := [], mostScanned := none }) := by
  decide
